import Mathlib

/-!
Verification of the ai-bug-reporter pipeline.

This file gives a shallow embedding of the repository's core components and
proves properties about them:

* `src/utils.py`   — `flatten_segments_text` (transcript formatter);
* `src/analysis.py` — the fault-tolerant JSON parse/recovery of
  `analyze_with_transcript` and `find_candidate_seconds`;
* `src/app.py`     — the clip-window computation of the clip-planning loop;
* `src/jira_client.py` — `attach_file_to_issue` (validation + retry loop),
  `text_to_adf`, and `create_issues`.

External collaborators (the filesystem, the HTTP layer, the LLM) are modelled
as explicit function parameters; network/sleep side effects are reified into a
trace so that "no network call was made" and "the sleeps were 1s then 2s" are
provable statements.  Python's `json.loads` is modelled by an executable
recursive-descent JSON parser (`json_loads`) over the JSON value type `JValue`
(numeric literals are kept as their source tokens; `\uXXXX` surrogate pairs
and non-ASCII fine points are elided).
-/

namespace BugReporter

/-! ### Python string and number primitives -/

/-- Whitespace stripped by Python `str.strip()` (ASCII part). -/
def pyWsChar (c : Char) : Bool :=
  c = ' ' || c = '\t' || c = '\n' || c = '\r' || c = '\x0B' || c = '\x0C'

/-- Model of Python `str.strip()`: drop leading and trailing whitespace. -/
def pyStrip (s : String) : String :=
  String.mk (((s.data.dropWhile pyWsChar).reverse.dropWhile pyWsChar).reverse)

/-- Model of Python `s[:n]` for a nonnegative bound. -/
def pyTake (s : String) (n : Nat) : String :=
  String.mk (s.data.take n)

/-- Model of Python `s[a:b]` for nonnegative indices. -/
def pySlice (s : String) (a b : Nat) : String :=
  String.mk ((s.data.drop a).take (b - a))

def pyFindCharAux (c : Char) : List Char → Nat → Option Nat
  | [], _ => none
  | x :: xs, i => if x = c then some i else pyFindCharAux c xs (i + 1)

/-- Model of Python `s.find(c)` for a single character: index of the first
occurrence (`none` plays the role of Python's `-1`). -/
def pyFindChar (s : String) (c : Char) : Option Nat :=
  pyFindCharAux c s.data 0

/-- Model of Python `s.rfind(c)` for a single character: index of the last
occurrence (`none` plays the role of Python's `-1`). -/
def pyRFindChar (s : String) (c : Char) : Option Nat :=
  (pyFindCharAux c s.data.reverse 0).map (fun i => s.data.length - 1 - i)

/-- Model of Python's format spec `>3`: right-align in a field of width 3,
padding with spaces. -/
def rightAlign3 (s : String) : String :=
  if s.length < 3 then String.mk (List.replicate (3 - s.length) ' ') ++ s else s

/-- Decimal digit character, for `d < 10`. -/
def digitChar (d : Nat) : Char := Char.ofNat ('0'.toNat + d)

/-- Decimal digits of a natural number (fuelled; `fuel > n` suffices). -/
def natReprAux : Nat → Nat → List Char
  | 0, _ => []
  | fuel + 1, n =>
    if n < 10 then [digitChar n]
    else natReprAux fuel (n / 10) ++ [digitChar (n % 10)]

/-- Model of Python `str(i)` for an integer. -/
def intRepr : ℤ → String
  | Int.ofNat n => String.mk (natReprAux (n + 1) n)
  | Int.negSucc n => String.mk ('-' :: natReprAux (n + 2) (n + 1))

/-- Model of Python `int(x)` on an exact rational: truncation toward zero. -/
def pyInt (q : ℚ) : ℤ :=
  if 0 ≤ q.num then ((q.num.toNat / q.den : Nat) : ℤ)
  else -(((-q.num).toNat / q.den : Nat) : ℤ)

/-- Model of Python `s.split(c)` for a one-character separator: `acc` holds the
(reversed) chunk being accumulated. -/
def splitCharsAux (c : Char) : List Char → List Char → List (List Char)
  | [], acc => [acc.reverse]
  | x :: xs, acc =>
    if x = c then acc.reverse :: splitCharsAux c xs [] else splitCharsAux c xs (x :: acc)

/-- Model of Python `"\n".join` at the character level. -/
def joinCharsNL : List (List Char) → List Char
  | [] => []
  | [x] => x
  | x :: y :: rest => x ++ '\n' :: joinCharsNL (y :: rest)

/-- Model of Python `"\n".join(lines)`. -/
def pyJoinNL (lines : List String) : String :=
  String.mk (joinCharsNL (lines.map String.data))

/-- Lines of a string: the chunks between newline characters, with the empty
string having no lines (so that a `"\n".join` of one line per segment has
exactly one line per segment, and zero segments give zero lines). -/
def linesOf (s : String) : List String :=
  if s = "" then [] else (splitCharsAux '\n' s.data []).map String.mk

/-! ### JSON values and a model of Python `json.loads`

The parser follows the JSON grammar that Python's `json` module accepts
(with numeric tokens kept verbatim and `\uXXXX` escapes mapped to single
code points).  `json_loads` fails (returns `none`) exactly where
`json.loads` raises, on the inputs relevant here: trailing garbage,
leading prose, unquoted words, and malformed literals. -/

inductive JValue where
  | null : JValue
  | bool (b : Bool) : JValue
  | num (tok : String) : JValue
  | str (s : String) : JValue
  | arr (elems : List JValue) : JValue
  | obj (fields : List (String × JValue)) : JValue

def jsonWs (c : Char) : Bool := c = ' ' || c = '\t' || c = '\n' || c = '\r'

def skipWs : List Char → List Char
  | [] => []
  | c :: cs => if jsonWs c then skipWs cs else c :: cs

def jsonDigit (c : Char) : Bool := '0' ≤ c && c ≤ '9'

def takeDigits : List Char → List Char × List Char
  | [] => ([], [])
  | c :: cs =>
    if jsonDigit c then
      let p := takeDigits cs
      (c :: p.1, p.2)
    else ([], c :: cs)

def parseFrac : List Char → Option (List Char × List Char)
  | '.' :: r =>
    let p := takeDigits r
    if p.1 = [] then none else some ('.' :: p.1, p.2)
  | cs => some ([], cs)

def parseExp : List Char → Option (List Char × List Char)
  | [] => some ([], [])
  | c :: r =>
    if c = 'e' || c = 'E' then
      let sp : List Char × List Char :=
        match r with
        | '+' :: r2 => (['+'], r2)
        | '-' :: r2 => (['-'], r2)
        | _ => ([], r)
      let p := takeDigits sp.2
      if p.1 = [] then none else some (c :: (sp.1 ++ p.1), p.2)
    else some ([], c :: r)

def parseNumber (cs : List Char) : Option (String × List Char) :=
  let sp : List Char × List Char :=
    match cs with
    | '-' :: r => (['-'], r)
    | _ => ([], cs)
  let ip := takeDigits sp.2
  if ip.1 = [] then none
  else if 1 < ip.1.length ∧ ip.1.head? = some '0' then none
  else
    match parseFrac ip.2 with
    | none => none
    | some (fr, cs3) =>
      match parseExp cs3 with
      | none => none
      | some (ex, cs4) => some (String.mk (sp.1 ++ ip.1 ++ fr ++ ex), cs4)

def hexVal (c : Char) : Option Nat :=
  if '0' ≤ c ∧ c ≤ '9' then some (c.toNat - '0'.toNat)
  else if 'a' ≤ c ∧ c ≤ 'f' then some (c.toNat - 'a'.toNat + 10)
  else if 'A' ≤ c ∧ c ≤ 'F' then some (c.toNat - 'A'.toNat + 10)
  else none

def parseStringBody : Nat → List Char → Option (List Char × List Char)
  | 0, _ => none
  | _ + 1, [] => none
  | fuel + 1, c :: cs =>
    if c = '"' then some ([], cs)
    else if c = '\\' then
      match cs with
      | [] => none
      | e :: cs2 =>
        let esc : Option (Char × List Char) :=
          if e = '"' then some ('"', cs2)
          else if e = '\\' then some ('\\', cs2)
          else if e = '/' then some ('/', cs2)
          else if e = 'b' then some ('\x08', cs2)
          else if e = 'f' then some ('\x0C', cs2)
          else if e = 'n' then some ('\n', cs2)
          else if e = 'r' then some ('\r', cs2)
          else if e = 't' then some ('\t', cs2)
          else if e = 'u' then
            match cs2 with
            | h1 :: h2 :: h3 :: h4 :: cs3 =>
              match hexVal h1, hexVal h2, hexVal h3, hexVal h4 with
              | some a, some b, some c2, some d =>
                some (Char.ofNat (((a * 16 + b) * 16 + c2) * 16 + d), cs3)
              | _, _, _, _ => none
            | _ => none
          else none
        match esc with
        | none => none
        | some (ch, rest) =>
          match parseStringBody fuel rest with
          | none => none
          | some (tail, r) => some (ch :: tail, r)
    else if c.toNat < 32 then none
    else
      match parseStringBody fuel cs with
      | none => none
      | some (tail, r) => some (c :: tail, r)

mutual

def parseValueF : Nat → List Char → Option (JValue × List Char)
  | 0, _ => none
  | fuel + 1, cs =>
    match skipWs cs with
    | [] => none
    | c :: rest =>
      if c = 'n' then
        match rest with
        | 'u' :: 'l' :: 'l' :: r => some (.null, r)
        | _ => none
      else if c = 't' then
        match rest with
        | 'r' :: 'u' :: 'e' :: r => some (.bool true, r)
        | _ => none
      else if c = 'f' then
        match rest with
        | 'a' :: 'l' :: 's' :: 'e' :: r => some (.bool false, r)
        | _ => none
      else if c = '"' then
        match parseStringBody (fuel + 1) rest with
        | some (chars, r) => some (.str (String.mk chars), r)
        | none => none
      else if c = '[' then
        match skipWs rest with
        | ']' :: r => some (.arr [], r)
        | cs2 =>
          match parseElemsF fuel cs2 with
          | some (vs, r) => some (.arr vs, r)
          | none => none
      else if c = '{' then
        match skipWs rest with
        | '}' :: r => some (.obj [], r)
        | cs2 =>
          match parseMembersF fuel cs2 with
          | some (fs, r) => some (.obj fs, r)
          | none => none
      else
        match parseNumber (c :: rest) with
        | some (tok, r) => some (.num tok, r)
        | none => none

def parseElemsF : Nat → List Char → Option (List JValue × List Char)
  | 0, _ => none
  | fuel + 1, cs =>
    match parseValueF fuel cs with
    | none => none
    | some (v, r) =>
      match skipWs r with
      | ',' :: r2 =>
        match parseElemsF fuel r2 with
        | some (vs, r3) => some (v :: vs, r3)
        | none => none
      | ']' :: r2 => some ([v], r2)
      | _ => none

def parseMembersF : Nat → List Char → Option (List (String × JValue) × List Char)
  | 0, _ => none
  | fuel + 1, cs =>
    match skipWs cs with
    | '"' :: rest =>
      match parseStringBody (fuel + 1) rest with
      | none => none
      | some (kchars, r) =>
        match skipWs r with
        | ':' :: r2 =>
          match parseValueF fuel r2 with
          | none => none
          | some (v, r3) =>
            match skipWs r3 with
            | ',' :: r4 =>
              match parseMembersF fuel r4 with
              | some (fs, r5) => some ((String.mk kchars, v) :: fs, r5)
              | none => none
            | '}' :: r4 => some ([(String.mk kchars, v)], r4)
            | _ => none
        | _ => none
    | _ => none

end

/-- Model of Python `json.loads`: parse a complete JSON document, allowing
surrounding whitespace and rejecting trailing garbage. -/
def json_loads (s : String) : Option JValue :=
  match parseValueF (2 * s.data.length + 2) s.data with
  | some (v, rest) => if skipWs rest = [] then some v else none
  | none => none

/-! ### `src/analysis.py`: fault-tolerant parse of the model output

The network call to the chat-completion collaborator is out of scope; these
functions embed, for the raw response string `raw`, the `try/except` parse
and recovery logic of `analyze_with_transcript` (lines 78-89) and
`find_candidate_seconds` (lines 26-37). -/

/-- Recovery logic of `analyze_with_transcript`: strict parse; on failure,
the substring from the first `[` to the last `]` (or the literal `"[]"` when
one of them is missing); on failure again, the empty list. -/
def analyze_with_transcript_parse (raw : String) : JValue :=
  match json_loads raw with
  | some v => v
  | none =>
    let slice :=
      match pyFindChar raw '[', pyRFindChar raw ']' with
      | some a, some b => pySlice raw a (b + 1)
      | _, _ => "[]"
    match json_loads slice with
    | some v => v
    | none => JValue.arr []

/-- Sentinel object returned by `find_candidate_seconds` when its second
parse attempt fails (line 37 of `src/analysis.py`). -/
def candidateSentinel : JValue :=
  JValue.obj [("candidates", JValue.arr []), ("notes", JValue.str "Parsing failed")]

/-- Recovery logic of `find_candidate_seconds`: strict parse; on failure, the
substring from the first `{` to the last `}` (or the literal `"{}"` when one
of them is missing); on failure again, the sentinel object. -/
def find_candidate_seconds_parse (raw : String) : JValue :=
  match json_loads raw with
  | some v => v
  | none =>
    let fp_slice :=
      match pyFindChar raw '{', pyRFindChar raw '}' with
      | some a, some b => pySlice raw a (b + 1)
      | _, _ => "{}"
    match json_loads fp_slice with
    | some v => v
    | none => candidateSentinel

/-! ### `src/utils.py`: `flatten_segments_text`

A segment is either dictionary-like (handled by the `hasattr(seg, "get")`
branch) or attribute-like (the `getattr` branch); both branches read `start`,
`end` and `text` with the same defaults, so both carry the same optional
fields here.  Times are modelled as exact rationals. -/

inductive Segment where
  | dictLike (start : Option ℚ) (stop : Option ℚ) (text : Option String) : Segment
  | attrLike (start : Option ℚ) (stop : Option ℚ) (text : Option String) : Segment

def segFields : Segment → Option ℚ × Option ℚ × Option String
  | .dictLike s e t => (s, e, t)
  | .attrLike s e t => (s, e, t)

/-- `start_s = int(seg.get("start", 0))`. -/
def segStart (seg : Segment) : ℤ := pyInt ((segFields seg).1.getD 0)

/-- `end_s = int(seg.get("end", max(start_s, 0)))`. -/
def segEnd (seg : Segment) : ℤ :=
  match (segFields seg).2.1 with
  | some e => pyInt e
  | none => max (segStart seg) 0

/-- `text = seg.get("text", "").strip()`. -/
def segText (seg : Segment) : String := pyStrip ((segFields seg).2.2.getD "")

/-- The per-segment line `f"[{start_s:>3}-{end_s:>3}s] {text}"`. -/
def formatSegment (seg : Segment) : String :=
  "[" ++ rightAlign3 (intRepr (segStart seg)) ++ "-" ++
    rightAlign3 (intRepr (segEnd seg)) ++ "s] " ++ segText seg

/-- `flatten_segments_text` from `src/utils.py`: one formatted line per
segment, joined by `"\n"`. -/
def flatten_segments_text (segments : List Segment) : String :=
  pyJoinNL (segments.map formatSegment)

/-! ### `src/app.py`: the clip-planning window (lines 66-82)

`start_sec = bug.get("start_sec", 0)`; `end_sec = bug.get("end_sec",
start_sec + 5)`; then `start_sec = max(0, start_sec - 2)` and
`end_sec = end_sec + 2`. -/

def clip_window (start_sec? : Option ℚ) (end_sec? : Option ℚ) : ℚ × ℚ :=
  let start_sec := start_sec?.getD 0
  let end_sec := end_sec?.getD (start_sec + 5)
  (max 0 (start_sec - 2), end_sec + 2)

/-- Modelled from the spec: "compute ClipWindow = `(max(0, start_sec − 2),
end_sec + 2)`; if `end_sec` is absent, default to `start_sec + 5` before
padding".  Stated for comparison with the source-derived `clip_window`. -/
def clip_window_spec (start_sec : ℚ) (end_sec? : Option ℚ) : ℚ × ℚ :=
  let e :=
    match end_sec? with
    | some e => e
    | none => start_sec + 5
  (max 0 (start_sec - 2), e + 2)

/-! ### `src/jira_client.py`: `attach_file_to_issue`

The filesystem is a map from paths to file data; the HTTP layer is a map
from the attempt index to that attempt's outcome (a response, or one of the
exception classes the code catches).  The returned `UploadTrace` reifies the
observable side effects: how many POSTs were made and which sleeps ran.
The filename normalisation (lines 29-32) and the size-proportional timeout
(line 48) only shape the request itself, which the trace does not record;
the timeout computation is embedded as `timeoutSeconds` for completeness. -/

/-- A file on disk: its `os.path.getsize` size and the result of
`f.read(12)` on its first bytes. -/
structure FileInfo where
  size : Nat
  header : List Nat
deriving DecidableEq, Repr

/-- Outcome of one POST attempt: an HTTP response, or one of the exception
classes distinguished by the `except` arms (lines 66-71). -/
inductive AttemptOutcome where
  | resp (status : Nat) (text : String) : AttemptOutcome
  | timeoutExc : AttemptOutcome
  | requestExc (msg : String) : AttemptOutcome
  | otherExc (msg : String) : AttemptOutcome
deriving DecidableEq, Repr

/-- Observable side effects of an upload: number of POSTs made, and the
durations passed to `time.sleep`, in order. -/
structure UploadTrace where
  posts : Nat
  sleeps : List Nat
deriving DecidableEq, Repr

/-- `min(max(60, int(file_size / (1024 * 1024))), 300)` (line 48). -/
def timeoutSeconds (size : Nat) : Nat :=
  min (max 60 (size / (1024 * 1024))) 300

/-- The `last_error` string recorded for a failed attempt (lines 61-71). -/
def attemptErrMsg (attempt max_retries : Nat) : AttemptOutcome → String
  | .resp status text =>
    let error_text := if text = "" then "No error message" else pyTake text 500
    "HTTP " ++ intRepr (status : ℤ) ++ ": " ++ error_text
  | .timeoutExc =>
    "Upload timeout (attempt " ++ intRepr ((attempt : ℤ) + 1) ++ "/" ++
      intRepr (max_retries : ℤ) ++ ")"
  | .requestExc m =>
    "Network error (attempt " ++ intRepr ((attempt : ℤ) + 1) ++ "/" ++
      intRepr (max_retries : ℤ) ++ "): " ++ m
  | .otherExc m =>
    "Unexpected error (attempt " ++ intRepr ((attempt : ℤ) + 1) ++ "/" ++
      intRepr (max_retries : ℤ) ++ "): " ++ m

/-- The sleep performed after a failed attempt, when attempts remain
(lines 74-76): `2 ** attempt` seconds, only when `attempt < max_retries - 1`. -/
def backoff (max_retries attempt : Nat) : List Nat :=
  if attempt < max_retries - 1 then [2 ^ attempt] else []

/-- The retry loop of `attach_file_to_issue` (lines 34-78).  `remaining` is
the number of loop iterations left (initially `max_retries`), `attempt` the
current 0-based attempt index, `le` the running `last_error`. -/
def uploadAttempts (net : Nat → AttemptOutcome) (max_retries : Nat) :
    Nat → Nat → Option String → List Nat → (Bool × String) × UploadTrace
  | 0, attempt, le, sleeps =>
    ((false, le.getD "Upload failed after all retries"), ⟨attempt, sleeps⟩)
  | remaining + 1, attempt, _le, sleeps =>
    match net attempt with
    | .resp status text =>
      if status < 300 then ((true, ""), ⟨attempt + 1, sleeps⟩)
      else if 400 ≤ status ∧ status < 500 then
        ((false, attemptErrMsg attempt max_retries (.resp status text)), ⟨attempt + 1, sleeps⟩)
      else
        uploadAttempts net max_retries remaining (attempt + 1)
          (some (attemptErrMsg attempt max_retries (.resp status text)))
          (sleeps ++ backoff max_retries attempt)
    | .timeoutExc =>
      uploadAttempts net max_retries remaining (attempt + 1)
        (some (attemptErrMsg attempt max_retries .timeoutExc))
        (sleeps ++ backoff max_retries attempt)
    | .requestExc m =>
      uploadAttempts net max_retries remaining (attempt + 1)
        (some (attemptErrMsg attempt max_retries (.requestExc m)))
        (sleeps ++ backoff max_retries attempt)
    | .otherExc m =>
      uploadAttempts net max_retries remaining (attempt + 1)
        (some (attemptErrMsg attempt max_retries (.otherExc m)))
        (sleeps ++ backoff max_retries attempt)

/-- The 10 MiB attachment ceiling (line 19). -/
def MAX_BYTES : Nat := 10 * 1024 * 1024

/-- Tenths of a megabyte, rounding half to even: models Python's
`f"{file_size / 1024 / 1024:.1f}"` via the exact rational value. -/
def fmtMBtenths (size : Nat) : Nat :=
  let num := size * 10
  let den := 1048576
  let q := num / den
  let r := num % den
  if den < r * 2 then q + 1 else if r * 2 < den then q else if q % 2 = 0 then q else q + 1

def fmtMBStr (size : Nat) : String :=
  intRepr ((fmtMBtenths size / 10 : Nat) : ℤ) ++ "." ++
    intRepr ((fmtMBtenths size % 10 : Nat) : ℤ)

/-- The MP4 header check of line 26: `header[4:8] == b'ftyp' or
header[0:4] == b'\x00\x00\x00\x20ftyp'`.  The second comparison is kept
exactly as written in the source: it compares a 4-byte slice with an 8-byte
literal. -/
def ftypOk (header : List Nat) : Bool :=
  ((header.drop 4).take 4 == [0x66, 0x74, 0x79, 0x70])
  || (header.take 4 == [0x00, 0x00, 0x00, 0x20, 0x66, 0x74, 0x79, 0x70])

/-- `attach_file_to_issue` from `src/jira_client.py`.  The pre-flight
validation (lines 10-27) runs before the retry loop; every validation
failure returns with a trace of zero POSTs and zero sleeps.  The outer
`except` (lines 79-80) has no counterpart because every operation of the
embedded world is total. -/
def attach_file_to_issue (fs : String → Option FileInfo)
    (net : Nat → AttemptOutcome) (file_path : String) (max_retries : Nat) :
    (Bool × String) × UploadTrace :=
  match fs file_path with
  | none => ((false, "File not found: " ++ file_path), ⟨0, []⟩)
  | some info =>
    if info.size = 0 then ((false, "File is empty"), ⟨0, []⟩)
    else if MAX_BYTES < info.size then
      ((false, "File too large: " ++ fmtMBStr info.size ++ "MB (max 10MB)"), ⟨0, []⟩)
    else if ftypOk info.header then
      uploadAttempts net max_retries max_retries 0 none []
    else ((false, "File does not appear to be a valid MP4"), ⟨0, []⟩)

/-! ### `src/jira_client.py`: `text_to_adf` (lines 83-118) -/

def adfParagraph (line : String) : JValue :=
  JValue.obj [("type", JValue.str "paragraph"),
    ("content", JValue.arr [JValue.obj [("type", JValue.str "text"),
      ("text", JValue.str (pyStrip line))]])]

def emptyParagraph : JValue :=
  JValue.obj [("type", JValue.str "paragraph"), ("content", JValue.arr [])]

def text_to_adf (text : String) : JValue :=
  if text = "" then
    JValue.obj [("version", JValue.num "1"), ("type", JValue.str "doc"),
      ("content", JValue.arr [])]
  else
    let lines := (splitCharsAux '\n' (pyStrip text).data []).map String.mk
    let paragraphs := lines.filterMap (fun line =>
      if pyStrip line = "" then none else some (adfParagraph line))
    let paragraphs := if paragraphs.isEmpty then [emptyParagraph] else paragraphs
    JValue.obj [("version", JValue.num "1"), ("type", JValue.str "doc"),
      ("content", JValue.arr paragraphs)]

/-- The `content` list of an ADF document object. -/
def adfContent (j : JValue) : List JValue :=
  match j with
  | .obj fields =>
    match fields.lookup "content" with
    | some (.arr xs) => xs
    | _ => []
  | _ => []

/-! ### `src/jira_client.py`: `create_issues` (lines 121-179)

The issue-creation POST, `resp.json().get("key")` and any exception raised
inside the per-bug `try` are abstracted into a per-index `CreateOutcome`;
the filesystem check `os.path.exists` and the recursive call to
`attach_file_to_issue` are further parameters.  Next to the error list that
the Python function returns, the embedding also returns the list of
attachment calls made (issue key, path), so that "no attachment was
attempted" is a provable statement. -/

structure Bug where
  summary? : Option String
  description? : Option String
  priority? : Option String

inductive CreateOutcome where
  | resp (status : Nat) (body : String) (key? : Option String) : CreateOutcome
  | raised (msg : String) : CreateOutcome

inductive ErrEntry where
  | error (msg : String) : ErrEntry
  | statusBody (status : Nat) (body : String) : ErrEntry
  | warning (msg : String) : ErrEntry
deriving DecidableEq, Repr

structure JiraEnv where
  url : Option String
  token : Option String
  email : Option String
  project : Option String

/-- The issue payload of lines 142-150. -/
def issuePayload (project_key : String) (b : Bug) : JValue :=
  JValue.obj [("fields", JValue.obj [
    ("project", JValue.obj [("key", JValue.str project_key)]),
    ("summary", JValue.str (b.summary?.getD "QA Bug")),
    ("description", text_to_adf (b.description?.getD "")),
    ("issuetype", JValue.obj [("name", JValue.str "Bug")]),
    ("priority", JValue.obj [("name", JValue.str (b.priority?.getD "Medium"))])])]

/-- Body of the per-bug loop (lines 138-178): returns the error entries this
bug appends and the attachment calls it makes. -/
def processBug (project_key : String) (creat : Nat → JValue → CreateOutcome)
    (pathExists : String → Bool) (doAttach : String → String → Bool × String)
    (clips : Nat → Option String) (idx : Nat) (b : Bug) :
    List ErrEntry × List (String × String) :=
  let payload := issuePayload project_key b
  match creat idx payload with
  | .raised m => ([.error m], [])
  | .resp status body key? =>
    if 300 ≤ status then ([.statusBody status body], [])
    else
      match key? with
      | some key =>
        if key = "" then ([], [])
        else
          match clips idx with
          | some path =>
            if pathExists path then
              let r := doAttach key path
              if r.1 then ([], [(key, path)])
              else ([.warning ("Failed to attach video to " ++ key ++ ": " ++ r.2)],
                [(key, path)])
            else ([], [])
          | none => ([], [])
      | none => ([], [])

/-- `create_issues` from `src/jira_client.py`: environment check, then the
per-bug loop, with all error entries appended in order. -/
def create_issues (env : JiraEnv) (bugs_list : List Bug)
    (clips : Nat → Option String) (creat : Nat → JValue → CreateOutcome)
    (pathExists : String → Bool) (doAttach : String → String → Bool × String) :
    List ErrEntry × List (String × String) :=
  match env.url, env.token, env.email, env.project with
  | some u, some t, some e, some p =>
    if u = "" ∨ t = "" ∨ e = "" ∨ p = "" then
      ([.error "Missing Jira environment variables"], [])
    else
      let results := bugs_list.enum.map (fun ib => processBug p creat pathExists doAttach clips ib.1 ib.2)
      ((results.map Prod.fst).flatten, (results.map Prod.snd).flatten)
  | _, _, _, _ => ([.error "Missing Jira environment variables"], [])

/-- A retryable attempt outcome in the sense of the specification: an HTTP
5xx response, or any of the caught network/timeout exception classes. -/
def Retryable (o : AttemptOutcome) : Prop :=
  (∃ st tx, o = .resp st tx ∧ 500 ≤ st ∧ st < 600) ∨ o = .timeoutExc ∨
    (∃ m, o = .requestExc m) ∨ (∃ m, o = .otherExc m)

/-! ### Helper lemmas -/

theorem string_data_append (a b : String) : (a ++ b).data = a.data ++ b.data := by
  cases a; cases b; rfl

theorem strLen_append (a b : String) : (a ++ b).length = a.length + b.length := by
  cases a; cases b; exact List.length_append _ _

theorem string_mk_data (s : String) : String.mk s.data = s := by
  cases s; rfl

theorem ne_empty_of_length_pos (s : String) (h : 0 < s.length) : s ≠ "" := by
  intro he
  rw [he] at h
  exact absurd h (by decide)

/-! ### Claim C6: the clip-planning window -/

/-- Claim C6: for every BugRecord the clip planner computes the window
`(max(0, start_sec - 2), end_sec + 2)`, where a missing `end_sec` defaults to
`start_sec + 5` before padding; `{start_sec: 1.0, end_sec: 3.0}` yields
`(0.0, 5.0)` and `{start_sec: 10.0}` with `end_sec` absent yields
`(8.0, 17.0)`.  The source-derived `clip_window` agrees with the
spec-derived `clip_window_spec` on every input with `start_sec` present. -/
theorem clip_window_correct :
    (∀ (s : ℚ) (e? : Option ℚ), clip_window (some s) e? = clip_window_spec s e?) ∧
    clip_window (some 1) (some 3) = (0, 5) ∧
    clip_window (some 10) none = (8, 17) := by
  refine ⟨fun s e? => ?_, ?_, ?_⟩
  · cases e? <;> rfl
  · show (max 0 ((1 : ℚ) - 2), (3 : ℚ) + 2) = (0, 5)
    rw [Prod.ext_iff]
    constructor
    · show max 0 ((1 : ℚ) - 2) = 0
      rw [max_eq_left (by norm_num : (1 : ℚ) - 2 ≤ 0)]
    · norm_num
  · show (max 0 ((10 : ℚ) - 2), ((10 : ℚ) + 5) + 2) = (8, 17)
    rw [Prod.ext_iff]
    constructor
    · show max 0 ((10 : ℚ) - 2) = 8
      rw [max_eq_right (by norm_num : (0 : ℚ) ≤ 10 - 2)]
      norm_num
    · norm_num

/-! ### Claim C4: parse recovery of the bug extractor -/

/-- Claim C4: for every raw model response string, the bug extractor's parse
returns the strict-parse value when the string is valid JSON; otherwise, when
the string contains a `[` and a `]`, it returns the parse of the substring
from the first `[` to the last `]` (the empty list when that parse fails
too); otherwise it returns the empty list — never raising. -/
theorem analyze_parse_recovery (raw : String) :
    (∀ v, json_loads raw = some v → analyze_with_transcript_parse raw = v) ∧
    (json_loads raw = none → ∀ a b, pyFindChar raw '[' = some a →
      pyRFindChar raw ']' = some b →
      analyze_with_transcript_parse raw =
        (json_loads (pySlice raw a (b + 1))).getD (JValue.arr [])) ∧
    (json_loads raw = none →
      (pyFindChar raw '[' = none ∨ pyRFindChar raw ']' = none) →
      analyze_with_transcript_parse raw = JValue.arr []) := by
  refine ⟨?_, ?_, ?_⟩
  · intro v h
    unfold analyze_with_transcript_parse
    rw [h]
  · intro h a b ha hb
    unfold analyze_with_transcript_parse
    rw [h]
    simp only [ha, hb]
    cases hs : json_loads (pySlice raw a (b + 1)) <;> simp [hs]
  · intro h hor
    unfold analyze_with_transcript_parse
    rw [h]
    rcases hor with hn | hn
    · cases hb : pyRFindChar raw ']' <;> simp only [hn, hb] <;> rfl
    · cases ha : pyFindChar raw '[' <;> simp only [hn, ha] <;> rfl

/-- Witness for C4: a prose-wrapped JSON array is recovered by the
first-`[`-to-last-`]` slice. -/
theorem analyze_parse_recovery_witness :
    json_loads "Sure! Here you go: [1, 2] Thanks" = none ∧
    analyze_with_transcript_parse "Sure! Here you go: [1, 2] Thanks" =
      JValue.arr [JValue.num "1", JValue.num "2"] := by
  constructor
  · rfl
  · have h := (analyze_parse_recovery "Sure! Here you go: [1, 2] Thanks").2.1 rfl 19 24 rfl rfl
    rw [h]
    rfl

/-! ### Claim C5: sentinel fallback of the candidate-seconds mode -/

/-- Counterexample for C5: on a response with no braces at all, both the
strict parse and the brace recovery fail to find JSON, yet the function
returns the empty object `{}` (because the fallback slice is the literal
`"{}"`, which parses), not the sentinel. -/
theorem find_candidate_parse_counterexample :
    json_loads "model returned no json at all" = none ∧
    find_candidate_seconds_parse "model returned no json at all" = JValue.obj [] ∧
    JValue.obj [] ≠ candidateSentinel := by
  refine ⟨rfl, rfl, ?_⟩
  intro h
  simp [candidateSentinel] at h

/-- Claim C5 (amended): for every raw string on which the strict parse
fails, the candidate-seconds mode returns the sentinel
`{"candidates": [], "notes": "Parsing failed"}` when the string contains
both a `{` and a `}` and the brace-delimited substring also fails to parse;
when the string lacks a `{` or a `}`, the fallback slice is the literal
`"{}"`, which parses, so the result is the empty object instead of the
sentinel.  No exception is raised in either case. -/
theorem find_candidate_parse_sentinel (raw : String) (h : json_loads raw = none) :
    (∀ a b, pyFindChar raw '{' = some a → pyRFindChar raw '}' = some b →
      json_loads (pySlice raw a (b + 1)) = none →
      find_candidate_seconds_parse raw = candidateSentinel) ∧
    ((pyFindChar raw '{' = none ∨ pyRFindChar raw '}' = none) →
      find_candidate_seconds_parse raw = JValue.obj []) := by
  constructor
  · intro a b ha hb hs
    unfold find_candidate_seconds_parse
    rw [h]
    simp only [ha, hb]
    rw [hs]
  · intro hor
    unfold find_candidate_seconds_parse
    rw [h]
    rcases hor with hn | hn
    · cases hb : pyRFindChar raw '}' <;> simp only [hn, hb] <;> rfl
    · cases ha : pyFindChar raw '{' <;> simp only [hn, ha] <;> rfl

/-- Witness for C5 (amended): a brace-delimited non-JSON substring yields the
sentinel; a brace-free string yields the empty object. -/
theorem find_candidate_parse_sentinel_witness :
    find_candidate_seconds_parse "x { y } z" = candidateSentinel ∧
    find_candidate_seconds_parse "plain text answer" = JValue.obj [] := by
  constructor
  · exact (find_candidate_parse_sentinel "x { y } z" rfl).1 2 6 rfl rfl rfl
  · exact (find_candidate_parse_sentinel "plain text answer" rfl).2 (Or.inl rfl)

/-! ### Claim C8: `text_to_adf` on empty and whitespace-only input -/

/-- Counterexample for C8: `text_to_adf("   \n  ")` does not have zero
paragraph nodes — the `if not paragraphs` fallback (lines 107-112) appends
one empty paragraph, so the content list has length 1. -/
theorem text_to_adf_whitespace_counterexample :
    ¬ ((adfContent (text_to_adf "")).length = 0 ∧
        (adfContent (text_to_adf "   \n  ")).length = 0) := by
  intro h
  have h1 : (adfContent (text_to_adf "   \n  ")).length = 1 := rfl
  exact absurd (h1.symm.trans h.2) (by decide)

/-- Claim C8 (amended): `text_to_adf("")` yields a structurally valid
document with zero paragraph nodes, while `text_to_adf("   \n  ")` yields a
structurally valid document whose content is exactly one paragraph node with
empty content (not an error in either case). -/
theorem text_to_adf_blank_documents :
    text_to_adf "" = JValue.obj [("version", JValue.num "1"),
      ("type", JValue.str "doc"), ("content", JValue.arr [])] ∧
    text_to_adf "   \n  " = JValue.obj [("version", JValue.num "1"),
      ("type", JValue.str "doc"), ("content", JValue.arr [emptyParagraph])] ∧
    adfContent (text_to_adf "") = [] ∧
    adfContent (text_to_adf "   \n  ") = [emptyParagraph] ∧
    emptyParagraph = JValue.obj [("type", JValue.str "paragraph"),
      ("content", JValue.arr [])] :=
  ⟨rfl, rfl, rfl, rfl, rfl⟩

/-! ### Upload-loop step lemmas -/

theorem attach_valid_unfold (fs : String → Option FileInfo)
    (net : Nat → AttemptOutcome) (path : String) (mr : Nat) (info : FileInfo)
    (hfs : fs path = some info) (hsz0 : info.size ≠ 0) (hsz : info.size ≤ MAX_BYTES)
    (hsig : ftypOk info.header = true) :
    attach_file_to_issue fs net path mr = uploadAttempts net mr mr 0 none [] := by
  unfold attach_file_to_issue
  rw [hfs]
  simp [hsz0, Nat.not_lt.mpr hsz, hsig]

theorem uploadAttempts_zero (net : Nat → AttemptOutcome) (mr attempt : Nat)
    (le : Option String) (sleeps : List Nat) :
    uploadAttempts net mr 0 attempt le sleeps =
      ((false, le.getD "Upload failed after all retries"), ⟨attempt, sleeps⟩) := rfl

theorem uploadAttempts_success_step (net : Nat → AttemptOutcome)
    (mr r attempt : Nat) (le : Option String) (sleeps : List Nat)
    (st : Nat) (tx : String) (hno : net attempt = .resp st tx) (hst : st < 300) :
    uploadAttempts net mr (r + 1) attempt le sleeps = ((true, ""), ⟨attempt + 1, sleeps⟩) := by
  simp only [uploadAttempts, hno]
  simp [hst]

theorem uploadAttempts_4xx_step (net : Nat → AttemptOutcome)
    (mr r attempt : Nat) (le : Option String) (sleeps : List Nat)
    (st : Nat) (tx : String) (hno : net attempt = .resp st tx)
    (h3 : ¬ st < 300) (h4 : 400 ≤ st ∧ st < 500) :
    uploadAttempts net mr (r + 1) attempt le sleeps =
      ((false, attemptErrMsg attempt mr (.resp st tx)), ⟨attempt + 1, sleeps⟩) := by
  simp only [uploadAttempts, hno]
  simp [h3, h4]

theorem uploadAttempts_retry_resp (net : Nat → AttemptOutcome)
    (mr r attempt : Nat) (le : Option String) (sleeps : List Nat)
    (st : Nat) (tx : String) (hno : net attempt = .resp st tx)
    (h3 : ¬ st < 300) (h4 : ¬ (400 ≤ st ∧ st < 500)) :
    uploadAttempts net mr (r + 1) attempt le sleeps =
      uploadAttempts net mr r (attempt + 1)
        (some (attemptErrMsg attempt mr (.resp st tx))) (sleeps ++ backoff mr attempt) := by
  simp only [uploadAttempts, hno]
  simp [h3, h4]

theorem uploadAttempts_retry_exc (net : Nat → AttemptOutcome)
    (mr r attempt : Nat) (le : Option String) (sleeps : List Nat)
    (o : AttemptOutcome) (hno : net attempt = o)
    (ho : o = .timeoutExc ∨ (∃ m, o = .requestExc m) ∨ (∃ m, o = .otherExc m)) :
    uploadAttempts net mr (r + 1) attempt le sleeps =
      uploadAttempts net mr r (attempt + 1)
        (some (attemptErrMsg attempt mr o)) (sleeps ++ backoff mr attempt) := by
  rcases ho with h | ⟨m, h⟩ | ⟨m, h⟩ <;> subst h <;> simp only [uploadAttempts, hno]

theorem uploadAttempts_retryable_step (net : Nat → AttemptOutcome)
    (mr r attempt : Nat) (le : Option String) (sleeps : List Nat)
    (h : Retryable (net attempt)) :
    uploadAttempts net mr (r + 1) attempt le sleeps =
      uploadAttempts net mr r (attempt + 1)
        (some (attemptErrMsg attempt mr (net attempt))) (sleeps ++ backoff mr attempt) := by
  rcases h with ⟨st, tx, hno, h5, _⟩ | hno | ⟨m, hno⟩ | ⟨m, hno⟩
  · rw [uploadAttempts_retry_resp net mr r attempt le sleeps st tx hno
      (by omega) (by omega), hno]
  · rw [uploadAttempts_retry_exc net mr r attempt le sleeps _ hno (Or.inl rfl), hno]
  · rw [uploadAttempts_retry_exc net mr r attempt le sleeps _ hno
      (Or.inr (Or.inl ⟨m, rfl⟩)), hno]
  · rw [uploadAttempts_retry_exc net mr r attempt le sleeps _ hno
      (Or.inr (Or.inr ⟨m, rfl⟩)), hno]

theorem attemptErrMsg_ne_empty (attempt mr : Nat) (o : AttemptOutcome) :
    attemptErrMsg attempt mr o ≠ "" := by
  cases o
  · apply ne_empty_of_length_pos
    simp only [attemptErrMsg, strLen_append]
    have h5 : ("HTTP " : String).length = 5 := rfl
    omega
  · apply ne_empty_of_length_pos
    simp only [attemptErrMsg, strLen_append]
    have h5 : ("Upload timeout (attempt " : String).length = 24 := rfl
    omega
  · apply ne_empty_of_length_pos
    simp only [attemptErrMsg, strLen_append]
    have h5 : ("Network error (attempt " : String).length = 23 := rfl
    omega
  · apply ne_empty_of_length_pos
    simp only [attemptErrMsg, strLen_append]
    have h5 : ("Unexpected error (attempt " : String).length = 26 := rfl
    omega

theorem uploadAttempts_msg_iff (net : Nat → AttemptOutcome) (mr : Nat) :
    ∀ (r attempt : Nat) (le : Option String) (sleeps : List Nat),
      (∀ s, le = some s → s ≠ "") →
      (((uploadAttempts net mr r attempt le sleeps).1.2 = "") ↔
        (uploadAttempts net mr r attempt le sleeps).1.1 = true) := by
  intro r
  induction r with
  | zero =>
    intro attempt le sleeps hle
    cases le with
    | none =>
      show ("Upload failed after all retries" = "") ↔ (false = true)
      constructor <;> intro h <;> exact absurd h (by decide)
    | some s =>
      have hs := hle s rfl
      show (s = "") ↔ (false = true)
      simp [hs]
  | succ r ih =>
    intro attempt le sleeps hle
    cases hno : net attempt with
    | resp st tx =>
      by_cases h3 : st < 300
      · rw [uploadAttempts_success_step net mr r attempt le sleeps st tx hno h3]
        simp
      · by_cases h4 : 400 ≤ st ∧ st < 500
        · rw [uploadAttempts_4xx_step net mr r attempt le sleeps st tx hno h3 h4]
          simp [attemptErrMsg_ne_empty]
        · rw [uploadAttempts_retry_resp net mr r attempt le sleeps st tx hno h3 h4]
          exact ih _ _ _ (fun s hs => (Option.some.inj hs) ▸ attemptErrMsg_ne_empty _ _ _)
    | timeoutExc =>
      rw [uploadAttempts_retry_exc net mr r attempt le sleeps _ hno (Or.inl rfl)]
      exact ih _ _ _ (fun s hs => (Option.some.inj hs) ▸ attemptErrMsg_ne_empty _ _ _)
    | requestExc m =>
      rw [uploadAttempts_retry_exc net mr r attempt le sleeps _ hno (Or.inr (Or.inl ⟨m, rfl⟩))]
      exact ih _ _ _ (fun s hs => (Option.some.inj hs) ▸ attemptErrMsg_ne_empty _ _ _)
    | otherExc m =>
      rw [uploadAttempts_retry_exc net mr r attempt le sleeps _ hno (Or.inr (Or.inr ⟨m, rfl⟩))]
      exact ih _ _ _ (fun s hs => (Option.some.inj hs) ▸ attemptErrMsg_ne_empty _ _ _)

/-! ### Claim C1: pre-flight validation is terminal and network-free -/

/-- Claim C1: each pre-flight validation failure — missing path, 0-byte
file, file above 10 MiB, or header failing the MP4 `ftyp` signature check in
both of its byte-layout comparisons — returns `(false, message)` with zero
POSTs and zero sleeps: terminal, before any network request, never
retried. -/
theorem attach_preflight_terminal (fs : String → Option FileInfo)
    (net : Nat → AttemptOutcome) (path : String) (mr : Nat) :
    (fs path = none →
      attach_file_to_issue fs net path mr =
        ((false, "File not found: " ++ path), ⟨0, []⟩)) ∧
    (∀ info, fs path = some info → info.size = 0 →
      attach_file_to_issue fs net path mr = ((false, "File is empty"), ⟨0, []⟩)) ∧
    (∀ info, fs path = some info → MAX_BYTES < info.size →
      attach_file_to_issue fs net path mr =
        ((false, "File too large: " ++ fmtMBStr info.size ++ "MB (max 10MB)"), ⟨0, []⟩)) ∧
    (∀ info, fs path = some info → info.size ≠ 0 → info.size ≤ MAX_BYTES →
      ftypOk info.header = false →
      attach_file_to_issue fs net path mr =
        ((false, "File does not appear to be a valid MP4"), ⟨0, []⟩)) := by
  refine ⟨?_, ?_, ?_, ?_⟩
  · intro h
    unfold attach_file_to_issue
    rw [h]
  · intro info hfs h0
    unfold attach_file_to_issue
    rw [hfs]
    simp [h0]
  · intro info hfs hM
    have h0 : info.size ≠ 0 := by
      have : 0 < MAX_BYTES := by decide
      omega
    unfold attach_file_to_issue
    rw [hfs]
    simp [h0, hM]
  · intro info hfs h0 hsz hsig
    unfold attach_file_to_issue
    rw [hfs]
    simp [h0, Nat.not_lt.mpr hsz, hsig]

/-- Witness for C1: concrete instances of all four validation failures, each
returning a terminal `(false, message)` with an empty trace. -/
theorem attach_preflight_terminal_witness :
    attach_file_to_issue (fun _ => none) (fun _ => .timeoutExc) "bug_1.mp4" 3 =
      ((false, "File not found: " ++ "bug_1.mp4"), ⟨0, []⟩) ∧
    attach_file_to_issue (fun _ => some ⟨0, []⟩) (fun _ => .timeoutExc) "bug_1.mp4" 3 =
      ((false, "File is empty"), ⟨0, []⟩) ∧
    attach_file_to_issue (fun _ => some ⟨11534336, [0, 0, 0, 32, 102, 116, 121, 112]⟩)
        (fun _ => .timeoutExc) "bug_1.mp4" 3 =
      ((false, "File too large: " ++ fmtMBStr 11534336 ++ "MB (max 10MB)"), ⟨0, []⟩) ∧
    attach_file_to_issue (fun _ => some ⟨5, [80, 75, 3, 4]⟩)
        (fun _ => .timeoutExc) "bug_1.mp4" 3 =
      ((false, "File does not appear to be a valid MP4"), ⟨0, []⟩) :=
  ⟨(attach_preflight_terminal (fun _ => none) (fun _ => .timeoutExc) "bug_1.mp4" 3).1 rfl,
    (attach_preflight_terminal (fun _ => some ⟨0, []⟩) (fun _ => .timeoutExc)
      "bug_1.mp4" 3).2.1 ⟨0, []⟩ rfl rfl,
    (attach_preflight_terminal (fun _ => some ⟨11534336, [0, 0, 0, 32, 102, 116, 121, 112]⟩)
      (fun _ => .timeoutExc) "bug_1.mp4" 3).2.2.1 ⟨11534336, [0, 0, 0, 32, 102, 116, 121, 112]⟩
      rfl (by decide),
    (attach_preflight_terminal (fun _ => some ⟨5, [80, 75, 3, 4]⟩) (fun _ => .timeoutExc)
      "bug_1.mp4" 3).2.2.2 ⟨5, [80, 75, 3, 4]⟩ rfl (by decide) (by decide) rfl⟩

/-! ### Claim C2: HTTP 4xx is terminal after exactly one attempt -/

/-- Claim C2: when pre-flight validation passes and the first HTTP response
has a 4xx status, the upload returns `(false, message)` after exactly one
POST, with no sleep and no further attempts. -/
theorem attach_4xx_terminal (fs : String → Option FileInfo)
    (net : Nat → AttemptOutcome) (path : String) (mr : Nat) (info : FileInfo)
    (st : Nat) (tx : String)
    (hfs : fs path = some info) (hsz0 : info.size ≠ 0) (hsz : info.size ≤ MAX_BYTES)
    (hsig : ftypOk info.header = true) (hmr : 0 < mr)
    (hnet : net 0 = .resp st tx) (h4 : 400 ≤ st) (h4b : st < 500) :
    attach_file_to_issue fs net path mr =
      ((false, attemptErrMsg 0 mr (.resp st tx)), ⟨1, []⟩) := by
  obtain ⟨m, rfl⟩ : ∃ m, mr = m + 1 := ⟨mr - 1, by omega⟩
  rw [attach_valid_unfold fs net path (m + 1) info hfs hsz0 hsz hsig]
  exact uploadAttempts_4xx_step net (m + 1) m 0 none [] st tx hnet (by omega) ⟨h4, h4b⟩

/-- Witness for C2: a valid 2 KiB MP4 whose upload returns HTTP 400 fails
terminally after one attempt with no sleeps. -/
theorem attach_4xx_terminal_witness :
    attach_file_to_issue (fun _ => some ⟨2048, [0, 0, 0, 32, 102, 116, 121, 112]⟩)
      (fun _ => .resp 400 "Bad Request") "bug_1.mp4" 3 =
      ((false, attemptErrMsg 0 3 (.resp 400 "Bad Request")), ⟨1, []⟩) :=
  attach_4xx_terminal _ _ _ _ _ _ _ rfl (by decide) (by decide) rfl (by decide)
    rfl (by decide) (by decide)

/-! ### Claim C3: retry with exponential backoff under the default budget -/

/-- Claim C3: with `max_retries = 3`, retryable outcomes (HTTP 5xx or a
caught network/timeout exception) are retried with sleeps of `2 ^ attempt`
seconds between attempts; the upload returns `(true, "")` as soon as an
attempt's status is below 300 — so 503, 503, 200 succeeds after exactly two
sleeps of 1s then 2s — and after three retryable attempts it returns
`(false, m)` where `m` is the last recorded error message. -/
theorem attach_retry_schedule (fs : String → Option FileInfo)
    (net : Nat → AttemptOutcome) (path : String) (info : FileInfo)
    (hfs : fs path = some info) (hsz0 : info.size ≠ 0) (hsz : info.size ≤ MAX_BYTES)
    (hsig : ftypOk info.header = true) :
    (∀ k, k < 3 → (∀ i, i < k → Retryable (net i)) →
      ∀ st tx, net k = .resp st tx → st < 300 →
        attach_file_to_issue fs net path 3 =
          ((true, ""), ⟨k + 1, (List.range k).map (fun i => 2 ^ i)⟩)) ∧
    ((∀ i, i < 3 → Retryable (net i)) →
      attach_file_to_issue fs net path 3 =
        ((false, attemptErrMsg 2 3 (net 2)), ⟨3, [1, 2]⟩)) := by
  have base : attach_file_to_issue fs net path 3 = uploadAttempts net 3 3 0 none [] :=
    attach_valid_unfold fs net path 3 info hfs hsz0 hsz hsig
  constructor
  · intro k hk hpre st tx hnet hst
    interval_cases k
    · exact base.trans (uploadAttempts_success_step net 3 2 0 none [] st tx hnet hst)
    · have s0 := uploadAttempts_retryable_step net 3 2 0 none [] (hpre 0 (by omega))
      have s1 := uploadAttempts_success_step net 3 1 1
        (some (attemptErrMsg 0 3 (net 0))) ([] ++ backoff 3 0) st tx hnet hst
      exact base.trans (s0.trans s1)
    · have s0 := uploadAttempts_retryable_step net 3 2 0 none [] (hpre 0 (by omega))
      have s1 := uploadAttempts_retryable_step net 3 1 1
        (some (attemptErrMsg 0 3 (net 0))) ([] ++ backoff 3 0) (hpre 1 (by omega))
      have s2 := uploadAttempts_success_step net 3 0 2
        (some (attemptErrMsg 1 3 (net 1))) (([] ++ backoff 3 0) ++ backoff 3 1)
        st tx hnet hst
      exact base.trans (s0.trans (s1.trans s2))
  · intro hall
    have s0 := uploadAttempts_retryable_step net 3 2 0 none [] (hall 0 (by omega))
    have s1 := uploadAttempts_retryable_step net 3 1 1
      (some (attemptErrMsg 0 3 (net 0))) ([] ++ backoff 3 0) (hall 1 (by omega))
    have s2 := uploadAttempts_retryable_step net 3 0 2
      (some (attemptErrMsg 1 3 (net 1))) (([] ++ backoff 3 0) ++ backoff 3 1)
      (hall 2 (by omega))
    exact base.trans (s0.trans (s1.trans s2))

/-- Witness for C3: a valid 2 KiB MP4 with responses 503, 503, 200 succeeds
on the third attempt after exactly two sleeps, of 1s then 2s. -/
theorem attach_retry_schedule_witness :
    attach_file_to_issue (fun _ => some ⟨2048, [0, 0, 0, 32, 102, 116, 121, 112]⟩)
      (fun i => if i < 2 then AttemptOutcome.resp 503 "Service Unavailable"
        else AttemptOutcome.resp 200 "OK") "bug_1.mp4" 3 =
      ((true, ""), ⟨3, [1, 2]⟩) := by
  have h := (attach_retry_schedule (fun _ => some ⟨2048, [0, 0, 0, 32, 102, 116, 121, 112]⟩)
      (fun i => if i < 2 then AttemptOutcome.resp 503 "Service Unavailable"
        else AttemptOutcome.resp 200 "OK") "bug_1.mp4" _
      rfl (by decide) (by decide) rfl).1 2 (by omega)
      (fun i hi => Or.inl ⟨503, "Service Unavailable", by rw [if_pos hi], by omega, by omega⟩)
      200 "OK" rfl (by omega)
  exact h

/-! ### Claim C9: total outcome, message empty iff success -/

/-- Claim C9: for every filesystem, path and network behaviour, the upload
operation returns a `(success, message)` pair (it is a total function of the
embedded inputs — nothing is raised), and the message is the empty string if
and only if `success` is true. -/
theorem attach_never_raises (fs : String → Option FileInfo)
    (net : Nat → AttemptOutcome) (path : String) (mr : Nat) :
    ((attach_file_to_issue fs net path mr).1.2 = "") ↔
      ((attach_file_to_issue fs net path mr).1.1 = true) := by
  unfold attach_file_to_issue
  cases hfs : fs path with
  | none =>
    show ("File not found: " ++ path = "") ↔ (false = true)
    constructor
    · intro h
      exact absurd h (ne_empty_of_length_pos _ (by
        rw [strLen_append]
        have : ("File not found: " : String).length = 16 := rfl
        omega))
    · intro h
      exact absurd h (by decide)
  | some info =>
    dsimp only
    by_cases h0 : info.size = 0
    · simp only [h0, if_pos rfl]
      show ("File is empty" = "") ↔ (false = true)
      constructor <;> intro h <;> exact absurd h (by decide)
    · rw [if_neg h0]
      by_cases hM : MAX_BYTES < info.size
      · rw [if_pos hM]
        show ("File too large: " ++ fmtMBStr info.size ++ "MB (max 10MB)" = "") ↔
          (false = true)
        constructor
        · intro h
          exact absurd h (ne_empty_of_length_pos _ (by
            rw [strLen_append, strLen_append]
            have : ("File too large: " : String).length = 16 := rfl
            omega))
        · intro h
          exact absurd h (by decide)
      · rw [if_neg hM]
        cases hsig : ftypOk info.header
        · rw [if_neg (by exact Bool.false_ne_true)]
          show ("File does not appear to be a valid MP4" = "") ↔ (false = true)
          constructor <;> intro h <;> exact absurd h (by decide)
        · rw [if_pos (by exact rfl)]
          exact uploadAttempts_msg_iff net mr mr 0 none []
            (fun s hs => absurd hs (by simp))

/-! ### Split/join and formatting lemmas for the transcript formatter -/

theorem splitCharsAux_append (c : Char) :
    ∀ (xs : List Char), c ∉ xs → ∀ (r acc : List Char),
      splitCharsAux c (xs ++ r) acc = splitCharsAux c r (xs.reverse ++ acc) := by
  intro xs
  induction xs with
  | nil => intro _ r acc; simp
  | cons x xs ih =>
    intro h r acc
    have hx : ¬ x = c := fun he => h (he ▸ List.mem_cons_self x xs)
    have hxs : c ∉ xs := fun hm => h (List.mem_cons_of_mem x hm)
    show splitCharsAux c (x :: (xs ++ r)) acc = _
    simp only [splitCharsAux]
    rw [if_neg hx, ih hxs r (x :: acc)]
    simp

theorem joinChars_split :
    ∀ (xss : List (List Char)), xss ≠ [] → (∀ xs ∈ xss, '\n' ∉ xs) →
      splitCharsAux '\n' (joinCharsNL xss) [] = xss := by
  intro xss
  induction xss with
  | nil => intro hne _; exact absurd rfl hne
  | cons x rest ih =>
    intro _ h
    have hx : '\n' ∉ x := h x (List.mem_cons_self x rest)
    cases rest with
    | nil =>
      have h1 : joinCharsNL [x] = x ++ [] := by simp [joinCharsNL]
      rw [h1, splitCharsAux_append '\n' x hx [] []]
      simp [splitCharsAux]
    | cons y rest2 =>
      have h2 : joinCharsNL (x :: y :: rest2) = x ++ '\n' :: joinCharsNL (y :: rest2) := rfl
      rw [h2, splitCharsAux_append '\n' x hx _ _]
      simp only [splitCharsAux, if_true]
      rw [ih (by simp) (fun xs hxs => h xs (List.mem_cons_of_mem x hxs))]
      simp

theorem formatSegment_length_pos (seg : Segment) : 0 < (formatSegment seg).length := by
  simp only [formatSegment, strLen_append]
  have h1 : ("[" : String).length = 1 := rfl
  omega

theorem mem_rightAlign3 (s : String) (c : Char) (h : c ∈ (rightAlign3 s).data) :
    c = ' ' ∨ c ∈ s.data := by
  unfold rightAlign3 at h
  split at h
  · rw [string_data_append] at h
    rcases List.mem_append.mp h with h1 | h1
    · left
      have h2 : (String.mk (List.replicate (3 - s.length) ' ')).data =
          List.replicate (3 - s.length) ' ' := rfl
      rw [h2] at h1
      exact (List.mem_replicate.mp h1).2
    · right; exact h1
  · right; exact h

theorem natReprAux_mem (fuel : Nat) :
    ∀ (n : Nat) (c : Char), c ∈ natReprAux fuel n → ∃ d, d < 10 ∧ c = digitChar d := by
  induction fuel with
  | zero => intro n c h; simp [natReprAux] at h
  | succ fuel ih =>
    intro n c h
    simp only [natReprAux] at h
    by_cases hn : n < 10
    · rw [if_pos hn] at h
      exact ⟨n, hn, List.mem_singleton.mp h⟩
    · rw [if_neg hn] at h
      rcases List.mem_append.mp h with h1 | h1
      · exact ih (n / 10) c h1
      · exact ⟨n % 10, Nat.mod_lt n (by omega), List.mem_singleton.mp h1⟩

theorem newline_not_mem_intRepr (i : ℤ) : '\n' ∉ (intRepr i).data := by
  intro h
  cases i with
  | ofNat n =>
    have h' : '\n' ∈ natReprAux (n + 1) n := h
    obtain ⟨d, hd, hc⟩ := natReprAux_mem (n + 1) n '\n' h'
    exact ((by decide : ∀ d, d < 10 → digitChar d ≠ '\n') d hd) hc.symm
  | negSucc n =>
    have h' : '\n' ∈ '-' :: natReprAux (n + 2) (n + 1) := h
    rcases List.mem_cons.mp h' with h1 | h1
    · exact absurd h1 (by decide)
    · obtain ⟨d, hd, hc⟩ := natReprAux_mem _ _ _ h1
      exact ((by decide : ∀ d, d < 10 → digitChar d ≠ '\n') d hd) hc.symm

theorem formatSegment_no_newline (seg : Segment) (h : '\n' ∉ (segText seg).data) :
    '\n' ∉ (formatSegment seg).data := by
  intro hmem
  unfold formatSegment at hmem
  rw [string_data_append, string_data_append, string_data_append, string_data_append,
    string_data_append] at hmem
  rcases List.mem_append.mp hmem with hX | hT
  · rcases List.mem_append.mp hX with hY | hS
    · rcases List.mem_append.mp hY with hZ | hB
      · rcases List.mem_append.mp hZ with hW | hDash
        · rcases List.mem_append.mp hW with hBr | hA
          · exact absurd hBr (by decide)
          · rcases mem_rightAlign3 _ _ hA with he | he
            · exact absurd he (by decide)
            · exact newline_not_mem_intRepr _ he
        · exact absurd hDash (by decide)
      · rcases mem_rightAlign3 _ _ hB with he | he
        · exact absurd he (by decide)
        · exact newline_not_mem_intRepr _ he
    · exact absurd hS (by decide)
  · exact h hT

theorem linesOf_flatten (segs : List Segment)
    (h : ∀ seg ∈ segs, '\n' ∉ (formatSegment seg).data) :
    linesOf (flatten_segments_text segs) = segs.map formatSegment := by
  cases segs with
  | nil => rfl
  | cons s rest =>
    have hmaps : ((s :: rest).map formatSegment).map String.data =
        (s :: rest).map (fun x => (formatSegment x).data) := by
      rw [List.map_map]; rfl
    have hne : joinCharsNL ((s :: rest).map (fun x => (formatSegment x).data)) ≠ [] := by
      cases rest with
      | nil =>
        show (formatSegment s).data ≠ []
        intro he
        have hp := formatSegment_length_pos s
        rw [show (formatSegment s).length = (formatSegment s).data.length from rfl, he] at hp
        exact absurd hp (by decide)
      | cons t rest2 =>
        show (formatSegment s).data ++ '\n' :: _ ≠ []
        simp
    show linesOf (pyJoinNL ((s :: rest).map formatSegment)) = _
    unfold linesOf pyJoinNL
    rw [hmaps]
    rw [if_neg (fun he => hne (by simpa using congrArg String.data he))]
    have hdata : (String.mk (joinCharsNL ((s :: rest).map
        (fun x => (formatSegment x).data)))).data =
        joinCharsNL ((s :: rest).map (fun x => (formatSegment x).data)) := rfl
    rw [hdata]
    rw [joinChars_split _ (by simp) (by
      intro xs hxs
      rcases List.mem_map.mp hxs with ⟨seg, hseg, rfl⟩
      exact h seg hseg)]
    rw [List.map_map]
    simp [Function.comp, string_mk_data]

/-! ### Truncation lemmas for `pyInt` -/

theorem natDivRat (n d : Nat) (hd : 0 < d) :
    ((n / d : Nat) : ℚ) ≤ (n : ℚ) / (d : ℚ) ∧
      (n : ℚ) / (d : ℚ) < ((n / d : Nat) : ℚ) + 1 := by
  have hd' : (0 : ℚ) < (d : ℚ) := by exact_mod_cast hd
  constructor
  · rw [le_div_iff₀ hd']
    exact_mod_cast Nat.div_mul_le_self n d
  · rw [div_lt_iff₀ hd']
    have key : n < (n / d + 1) * d := by
      have h1 := Nat.div_add_mod n d
      have h2 := Nat.mod_lt n hd
      have h3 : n < d * (n / d) + d := by omega
      calc n < d * (n / d) + d := h3
        _ = (n / d + 1) * d := by ring
    exact_mod_cast key

theorem pyInt_trunc (q : ℚ) :
    (0 ≤ q → (pyInt q : ℚ) ≤ q ∧ q < (pyInt q : ℚ) + 1) ∧
    (q < 0 → q ≤ (pyInt q : ℚ) ∧ (pyInt q : ℚ) < q + 1) := by
  constructor
  · intro hq
    have hnum : 0 ≤ q.num := Rat.num_nonneg.mpr hq
    have key := natDivRat q.num.toNat q.den q.pos
    have hcast : ((q.num.toNat : Nat) : ℚ) = ((q.num : ℤ) : ℚ) := by
      exact_mod_cast congrArg (fun z : ℤ => (z : ℚ)) (Int.toNat_of_nonneg hnum)
    rw [hcast, Rat.num_div_den] at key
    rw [pyInt, if_pos hnum]
    constructor
    · push_cast
      exact_mod_cast key.1
    · push_cast
      exact_mod_cast key.2
  · intro hq
    have hnum : ¬ 0 ≤ q.num := fun hc => absurd (Rat.num_nonneg.mp hc) (not_le.mpr hq)
    have hnn : (0 : ℤ) ≤ -q.num := by omega
    have key := natDivRat (-q.num).toNat q.den q.pos
    have hcast : (((-q.num).toNat : Nat) : ℚ) = -((q.num : ℤ) : ℚ) := by
      have h1 := Int.toNat_of_nonneg hnn
      exact_mod_cast congrArg (fun z : ℤ => (z : ℚ)) h1
    rw [hcast] at key
    have hq_eq : -((q.num : ℚ)) / (q.den : ℚ) = -q := by
      rw [neg_div, Rat.num_div_den]
    rw [hq_eq] at key
    rw [pyInt, if_neg hnum]
    have hgoal : ((-(((-q.num).toNat / q.den : Nat) : ℤ) : ℤ) : ℚ) =
        -(((-q.num).toNat / q.den : Nat) : ℚ) := by
      rw [Int.cast_neg, Int.cast_natCast]
    rw [hgoal]
    constructor
    · linarith [key.1]
    · linarith [key.2]

/-! ### Claim C7: the transcript formatter -/

/-- Counterexample for C7: a single segment whose (stripped) text contains an
interior newline yields two lines, not exactly one line per segment. -/
theorem flatten_newline_counterexample :
    (linesOf (flatten_segments_text
        [Segment.dictLike (some (mkRat 0 1)) (some (mkRat 0 1)) (some "a\nb")])).length ≠
      [Segment.dictLike (some (mkRat 0 1)) (some (mkRat 0 1)) (some "a\nb")].length := by
  decide

/-- Claim C7 (amended): provided no segment's stripped text contains a
newline character, the transcript formatter produces exactly one line per
segment, in input order, each line being
`"[" ++ <start right-aligned to 3> ++ "-" ++ <end right-aligned to 3> ++ "s] " ++ <stripped text>`
(the definition of `formatSegment`), identically for key-based and
attribute-based segments; the empty sequence yields the empty string; and
the integer conversion truncates toward zero — it never rounds away from
zero. -/
theorem flatten_segments_spec (segs : List Segment)
    (h : ∀ seg ∈ segs, '\n' ∉ (segText seg).data) :
    (segs = [] → flatten_segments_text segs = "") ∧
    linesOf (flatten_segments_text segs) = segs.map formatSegment ∧
    (∀ s e t, formatSegment (Segment.dictLike s e t) = formatSegment (Segment.attrLike s e t)) ∧
    (∀ q : ℚ, (0 ≤ q → (pyInt q : ℚ) ≤ q ∧ q < (pyInt q : ℚ) + 1) ∧
      (q < 0 → q ≤ (pyInt q : ℚ) ∧ (pyInt q : ℚ) < q + 1)) := by
  refine ⟨?_, ?_, ?_, fun q => pyInt_trunc q⟩
  · rintro rfl; rfl
  · exact linesOf_flatten segs (fun seg hs => formatSegment_no_newline seg (h seg hs))
  · intro s e t; rfl

/-- Witness for C7 (amended): two newline-free segments — one dict-like with
a missing end, one attribute-like — produce exactly their two formatted
lines in order. -/
theorem flatten_segments_spec_witness :
    linesOf (flatten_segments_text
        [Segment.dictLike (some (mkRat 39 10)) none (some "  login fails  "),
         Segment.attrLike (some (mkRat 1 1)) (some (mkRat 7 2)) (some "spinner stuck")]) =
      [Segment.dictLike (some (mkRat 39 10)) none (some "  login fails  "),
       Segment.attrLike (some (mkRat 1 1)) (some (mkRat 7 2)) (some "spinner stuck")].map
        formatSegment :=
  ((flatten_segments_spec _ (by decide)).2).1

/-! ### Claim C10: filing with a clip-map entry whose file is gone -/

/-- Claim C10: when a bug's index is present in the clip map but the
recorded path no longer exists at filing time, the ticket filer creates the
ticket, makes no attachment attempt, and appends neither a warning nor an
error entry — the missing file is silently ignored. -/
theorem create_issues_missing_clip_silent
    (project_key : String) (creat : Nat → JValue → CreateOutcome)
    (pathExists : String → Bool) (doAttach : String → String → Bool × String)
    (clips : Nat → Option String) (idx : Nat) (b : Bug)
    (st : Nat) (body : String) (key : String) (p : String)
    (hc : creat idx (issuePayload project_key b) = .resp st body (some key))
    (hst : st < 300) (hkey : key ≠ "")
    (hclip : clips idx = some p) (hex : pathExists p = false) :
    processBug project_key creat pathExists doAttach clips idx b = ([], []) ∧
    (project_key ≠ "" →
      create_issues ⟨some "https://example.atlassian.net", some "token0",
          some "qa@example.com", some project_key⟩ [b]
        (fun _ => clips idx) (fun _ => creat idx) pathExists doAttach = ([], [])) := by
  have hpb : processBug project_key creat pathExists doAttach clips idx b = ([], []) := by
    simp only [processBug]
    rw [hc]
    simp [Nat.not_le.mpr hst, hkey, hclip, hex]
  refine ⟨hpb, fun hpk => ?_⟩
  have hpb2 : processBug project_key (fun _ => creat idx) pathExists doAttach
      (fun _ => clips idx) 0 b = ([], []) := hpb
  unfold create_issues
  dsimp only
  rw [if_neg (by push_neg; exact ⟨by decide, by decide, by decide, hpk⟩)]
  have henum : ([b] : List Bug).enum = [(0, b)] := rfl
  rw [henum]
  simp [hpb2]

/-- Witness for C10: a created ticket whose clip path is absent from disk
produces no error entries and no attachment calls. -/
theorem create_issues_missing_clip_silent_witness :
    processBug "QA" (fun _ _ => CreateOutcome.resp 201 "created" (some "QA-1"))
      (fun _ => false) (fun _ _ => (true, "")) (fun _ => some "/tmp/clip_0.mp4") 0
      ⟨some "Login broken", some "Expected X, actual Y", some "High"⟩ = ([], []) :=
  (create_issues_missing_clip_silent "QA" (fun _ _ => CreateOutcome.resp 201 "created" (some "QA-1"))
    (fun _ => false) (fun _ _ => (true, "")) (fun _ => some "/tmp/clip_0.mp4") 0
    ⟨some "Login broken", some "Expected X, actual Y", some "High"⟩
    201 "created" "QA-1" "/tmp/clip_0.mp4" rfl (by decide) (by decide) rfl rfl).1

end BugReporter
